import Mathlib

/-!
Verification development for a fragment of the AWS ParallelCluster CLI:
configuration validators (cli/src/pcluster/validators/ebs_validators.py,
cli/src/pcluster/validators/s3_validators.py), the CloudFormation client
wrapper (cli/src/pcluster/aws/cfn.py) and the image-builder schema
(cli/src/pcluster/schemas/imagebuilder_schema.py).

Shallow embedding conventions:
- a Python validator `_validate` becomes a function returning the ordered
  list of ValidationFailure values recorded through `self._add_failure`;
- validators whose body can raise a Python exception that escapes the
  method return `Except PyError ...` (or pair the recorded failures with
  an optional escaped exception when failures recorded before the raise
  must be kept visible);
- Python integers are Lean `Int`; the float comparison against the literal
  0.25 (exactly representable) is modelled over `Rat`, exact for every
  input whose magnitude keeps the Python float product exact;
- external collaborators (snapshot lookup, S3 head-object, urlopen) are
  passed in as function parameters describing their outcome;
- module-level constant tables imported from modules outside this excerpt
  are passed as function parameters; a concrete instance used in witnesses
  is modelled from the spec where noted.
-/

/-- Severity of a validation outcome, from pcluster.models.common.FailureLevel
(the spec requires at least WARNING and ERROR). -/
inductive FailureLevel where
  | WARNING
  | ERROR
deriving DecidableEq, Repr

/-- A recorded validation failure: the message passed to `_add_failure`
together with its severity level. -/
structure ValidationFailure where
  message : String
  level : FailureLevel
deriving DecidableEq, Repr

/-- Python exceptions that can escape a modelled method. -/
inductive PyError where
  | zeroDivisionError
  | attributeError
deriving DecidableEq, Repr

/-- Decidable equality of Except outcomes, used to evaluate closed validator
runs by decide. -/
instance {ε α : Type} [DecidableEq ε] [DecidableEq α] : DecidableEq (Except ε α) :=
  fun a b =>
  match a, b with
  | .error e, .error f =>
    if h : e = f then .isTrue (by simp [h]) else .isFalse (by simp [h])
  | .error _, .ok _ => .isFalse (by simp)
  | .ok _, .error _ => .isFalse (by simp)
  | .ok x, .ok y =>
    if h : x = y then .isTrue (by simp [h]) else .isFalse (by simp [h])

/-- Message of the failure raised when a volume size exceeds the maximum for
its type (EbsVolumeTypeSizeValidator). -/
def sizeExceedMessage (volume_type : String) (max_size : Int) : String :=
  "The size of " ++ volume_type ++ " volumes can not exceed " ++ toString max_size ++ " GiB"

/-- Message of the failure raised when a volume size is below the minimum for
its type (EbsVolumeTypeSizeValidator). -/
def sizeBelowMessage (volume_type : String) (min_size : Int) : String :=
  "The size of " ++ volume_type ++ " volumes must be at least " ++ toString min_size ++ " GiB"

/-- EbsVolumeTypeSizeValidator._validate: checks volume_size against the
per-type size bounds table EBS_VOLUME_TYPE_TO_VOLUME_SIZE_BOUNDS (passed in
as `sizeBounds`, since that constant is imported from a module outside this
excerpt). -/
def ebsVolumeTypeSizeValidate (sizeBounds : String → Option (Int × Int))
    (volume_type : String) (volume_size : Int) : List ValidationFailure :=
  match sizeBounds volume_type with
  | none => []
  | some (min_size, max_size) =>
    if volume_size > max_size then
      [⟨sizeExceedMessage volume_type max_size, .ERROR⟩]
    else if volume_size < min_size then
      [⟨sizeBelowMessage volume_type min_size, .ERROR⟩]
    else []

/-- Modelled from the spec: the constant EBS_VOLUME_TYPE_TO_VOLUME_SIZE_BOUNDS
is imported from pcluster.config.validators, which is not part of this
excerpt; its content is stated by the docstring of EbsVolumeTypeSizeValidator
(standard 1 to 1024 GiB, gp2 and gp3 1 to 16384, io1 and io2 4 to 16384,
st1 and sc1 500 to 16384). -/
def EBS_VOLUME_TYPE_TO_VOLUME_SIZE_BOUNDS : String → Option (Int × Int) := fun vt =>
  if vt = "standard" then some (1, 1024)
  else if vt = "gp2" then some (1, 16384)
  else if vt = "gp3" then some (1, 16384)
  else if vt = "io1" then some (4, 16384)
  else if vt = "io2" then some (4, 16384)
  else if vt = "st1" then some (500, 16384)
  else if vt = "sc1" then some (500, 16384)
  else none

/-- Message of the gp3 throughput-to-IOPS ratio failure; the source formats
float(volume_throughput) / float(volume_iops), modelled exactly over Rat. -/
def throughputRatioMessage (volume_throughput volume_iops : Int) : String :=
  "Throughput to IOPS ratio of " ++ toString ((volume_throughput : ℚ) / (volume_iops : ℚ)) ++
    " is too high; maximum is 0.25."

/-- EbsVolumeThroughputIopsValidator._validate. The Python truthiness test
`volume_throughput.value and ...` makes the check a no-op when the
throughput is unset (None) or zero; when the failure branch is taken the
message formatting divides float(throughput) by float(iops), which raises
ZeroDivisionError when volume_iops is 0, escaping the method. -/
def ebsVolumeThroughputIopsValidate (volume_type : String) (volume_iops : Int)
    (volume_throughput : Option Int) : Except PyError (List ValidationFailure) :=
  let volume_throughput_to_iops_ratio : ℚ := 0.25
  if volume_type = "gp3" then
    match volume_throughput with
    | none => .ok []
    | some t =>
      if t ≠ 0 ∧ (t : ℚ) > (volume_iops : ℚ) * volume_throughput_to_iops_ratio then
        if volume_iops = 0 then .error .zeroDivisionError
        else .ok [⟨throughputRatioMessage t volume_iops, .ERROR⟩]
      else .ok []
  else .ok []

/-- Message of the per-type IOPS bounds failure (EbsVolumeIopsValidator). -/
def iopsBoundsMessage (min_iops max_iops : Int) (volume_type : String) : String :=
  "IOPS rate must be between " ++ toString min_iops ++ " and " ++ toString max_iops ++
    " when provisioning " ++ volume_type ++ " volumes."

/-- Message of the IOPS-to-size ratio failure; the source formats
float(volume_iops) / float(volume_size), modelled exactly over Rat. -/
def iopsRatioMessage (volume_iops volume_size ratio_cap : Int) : String :=
  "IOPS to volume size ratio of " ++ toString ((volume_iops : ℚ) / (volume_size : ℚ)) ++
    " is too high; maximum is " ++ toString ratio_cap ++ "."

/-- EbsVolumeIopsValidator._validate. The tables EBS_VOLUME_IOPS_BOUNDS and
EBS_VOLUME_TYPE_TO_IOPS_RATIO are imported from a module outside this
excerpt and are passed in (`iopsBounds`, `iopsRatioOf`; the spec states the
ratio table is defined for exactly the IOPS-bearing types, so it is total on
the domain guarded by `iopsBounds`). The truthiness test `volume_iops.value
and ...` skips both checks when IOPS is unset or zero. In the ratio branch
the message formatting divides float(volume_iops) by float(volume_size),
raising ZeroDivisionError when volume_size is 0. -/
def ebsVolumeIopsValidate (iopsBounds : String → Option (Int × Int))
    (iopsRatioOf : String → Int) (volume_type : String) (volume_size : Int)
    (volume_iops : Option Int) : Except PyError (List ValidationFailure) :=
  match iopsBounds volume_type with
  | none => .ok []
  | some (min_iops, max_iops) =>
    match volume_iops with
    | none => .ok []
    | some v =>
      if v ≠ 0 ∧ (v < min_iops ∨ v > max_iops) then
        .ok [⟨iopsBoundsMessage min_iops max_iops volume_type, .ERROR⟩]
      else if v ≠ 0 ∧ v > volume_size * iopsRatioOf volume_type then
        if volume_size = 0 then .error .zeroDivisionError
        else .ok [⟨iopsRatioMessage v volume_size (iopsRatioOf volume_type), .ERROR⟩]
      else .ok []

/-- Modelled from the spec: one entry of the EBS_VOLUME_IOPS_BOUNDS table
(imported from a module outside this excerpt), here the io1 row, used to
instantiate the universally quantified theorems on a concrete table. -/
def sampleIopsBounds : String → Option (Int × Int) := fun vt =>
  if vt = "io1" then some (100, 64000) else none

/-- Modelled from the spec: the matching max-IOPS-per-GiB entry for io1 of
the EBS_VOLUME_TYPE_TO_IOPS_RATIO table. -/
def sampleIopsCap : String → Int := fun vt =>
  if vt = "io1" then 50 else 0

/-- Snapshot metadata returned by get_ebs_snapshot_info: the fields the
validator reads through dict.get (absent keys read as None). -/
structure SnapshotInfo where
  VolumeSize : Option Int
  State : Option String
deriving DecidableEq, Repr

/-- Outcome of the get_ebs_snapshot_info collaborator call: a response
dictionary, a botocore ClientError carrying an error code and message, or
any other raised exception (carrying its display text). -/
inductive SnapshotLookupResult where
  | ok (info : SnapshotInfo)
  | clientError (code : String) (message : String)
  | otherError (description : String)
deriving DecidableEq, Repr

/-- Rendering of an optional string by Python str.format (None prints as
the four letters None). -/
def pyOptStr : Option String → String
  | some s => s
  | none => "None"

/-- Message of the shrink failure in EbsVolumeSizeSnapshotValidator. In the
source it is an f-string (interpolating snapshot_volume_size) implicitly
concatenated with a PLAIN string literal, so the \x7bsnapshot_id\x7d in the
second literal is never formatted and stays verbatim in the message. -/
def snapshotShrinkMessage (snapshot_volume_size : Int) : String :=
  ("The EBS volume size must not be smaller than " ++ toString snapshot_volume_size ++ ", ") ++
    "because it is the size of the provided snapshot \x7bsnapshot_id\x7d"

/-- Message of the grow warning in EbsVolumeSizeSnapshotValidator; the doc
host depends on get_partition(), passed in as `partition`. -/
def snapshotGrowMessage (partition : String) : String :=
  "The specified volume size is larger than snapshot size. In order to use the full capacity " ++
    "of the volume, you\x27ll need to manually resize the partition according to this doc: " ++
    "https://" ++ (if partition = "aws-cn" then "docs.amazonaws.cn" else "docs.aws.amazon.com") ++
    "/AWSEC2/latest/UserGuide/recognize-expanded-volume-linux.html"

/-- Message of the snapshot-state warning in EbsVolumeSizeSnapshotValidator. -/
def snapshotStateMessage (sid : String) (st : Option String) : String :=
  "Snapshot " ++ sid ++ " is in state \x27" ++ pyOptStr st ++ "\x27 not \x27completed\x27"

/-- EbsVolumeSizeSnapshotValidator._validate. The whole body runs inside
`try ... except Exception`, whose handler classifies ClientError codes
InvalidSnapshot.NotFound and InvalidSnapshot.Malformed into a not-found
failure and converts EVERY other exception into a generic ERROR failure, so
no lookup fault escapes the method: the result is always `.ok`. The Except
return type keeps the channel an escaping exception would use visible. -/
def ebsVolumeSizeSnapshotValidate (partition : String)
    (get_ebs_snapshot_info : String → SnapshotLookupResult)
    (snapshot_id : Option String) (volume_size : Int) :
    Except PyError (List ValidationFailure) :=
  match snapshot_id with
  | none => .ok []
  | some sid =>
    if sid = "" then .ok []
    else
      match get_ebs_snapshot_info sid with
      | .ok info =>
        .ok ((match info.VolumeSize with
              | none => [⟨"Unable to get volume size for snapshot " ++ sid, .ERROR⟩]
              | some snapshot_volume_size =>
                if volume_size < snapshot_volume_size then
                  [⟨snapshotShrinkMessage snapshot_volume_size, .ERROR⟩]
                else if volume_size > snapshot_volume_size then
                  [⟨snapshotGrowMessage partition, .WARNING⟩]
                else []) ++
          (if info.State ≠ some "completed" then
            [⟨snapshotStateMessage sid info.State, .WARNING⟩]
          else []))
      | .clientError code message =>
        if code = "InvalidSnapshot.NotFound" ∨ code = "InvalidSnapshot.Malformed" then
          .ok [⟨"The snapshot " ++ sid ++ " does not appear to exist: " ++ message, .ERROR⟩]
        else
          .ok [⟨"Issue getting info for snapshot " ++ sid ++ ": " ++ message, .ERROR⟩]
      | .otherError description =>
        .ok [⟨"Issue getting info for snapshot " ++ sid ++ ": " ++ description, .ERROR⟩]

/-- Result of re.match applied to the pattern s3://(.*?)/(.*). A match needs
the literal s3:// at the start, then the lazy first group runs to the FIRST
slash of the remainder and the greedy second group takes everything after
it; with no slash in the remainder there is no match. (The dot of the
pattern does not match a newline; the inputs considered here have none.) -/
def s3UriMatch (s3_url : String) : Option (String × String) :=
  match s3_url.data with
  | 's' :: '3' :: ':' :: '/' :: '/' :: rest =>
    if ('/') ∈ rest then
      some (String.mk (rest.takeWhile (fun c => c ≠ '/')),
            String.mk ((rest.dropWhile (fun c => c ≠ '/')).drop 1))
    else none
  | _ => none

/-- UrlValidator._validate_s3_uri. When the regex does not match, the
invalid-url failure is recorded and then the unconditional
`match.group(1)` dereferences None, raising AttributeError; the
surrounding handler only catches ClientError, so that exception escapes
with the failure already recorded. The S3 head_object collaborator is
passed in; its ClientError outcome becomes the access failure. The result
pairs the recorded failures with the escaped exception, if any. -/
def UrlValidator_validate_s3_uri (head_object : String → String → Except Unit Unit)
    (s3_url : String) : List ValidationFailure × Option PyError :=
  match s3UriMatch s3_url with
  | none =>
    ([⟨"s3 url \x27" ++ s3_url ++ "\x27 is invalid.", .ERROR⟩], some .attributeError)
  | some (bucket_name, object_name) =>
    match head_object bucket_name object_name with
    | .ok _ => ([], none)
    | .error _ =>
      ([⟨"The S3 object does not exist or you do not have access to it.\n" ++
          "Please make sure the cluster nodes have access to it.", .ERROR⟩], none)

/-- Characters urlparse accepts inside a scheme token. -/
def isSchemeChar (c : Char) : Bool :=
  c.isAlphanum || c = '+' || c = '-' || c = '.'

/-- urlparse(url).scheme: the text before the first colon, lowercased, when
it is a wellformed scheme token (nonempty, leading letter, scheme
characters only, and a colon actually present); otherwise the empty string.
Computed over the character list of the url. -/
def urlScheme (url : String) : String :=
  let pre : List Char := url.data.takeWhile (fun c => c ≠ ':')
  if pre.length < url.data.length ∧ pre ≠ [] ∧ (pre.headD ' ').isAlpha = true ∧
      pre.all isSchemeChar = true then
    String.mk (pre.map Char.toLower)
  else ""

/-- Outcome of the urlopen collaborator call used by the https branch. -/
inductive UrlOpenResult where
  | ok
  | httpError (code : Int) (reason : String)
  | urlError (reason : String)
  | valueError
deriving DecidableEq, Repr

/-- UrlValidator._validate: dispatch on the parsed scheme; the s3 branch
delegates to _validate_s3_uri (whose AttributeError, if raised, escapes
this method too); the https branch converts each caught urlopen exception
into a failure; file is accepted; anything else is an ERROR. -/
def UrlValidator_validate (head_object : String → String → Except Unit Unit)
    (urlopen : String → UrlOpenResult) (url : String) :
    List ValidationFailure × Option PyError :=
  let scheme := urlScheme url
  if scheme = "https" ∨ scheme = "s3" ∨ scheme = "file" then
    if scheme = "s3" then UrlValidator_validate_s3_uri head_object url
    else if scheme = "https" then
      (match urlopen url with
       | .ok => []
       | .httpError code reason =>
         [⟨"The url \x27" ++ url ++ "\x27 cause HTTPError, the error code is \x27" ++
             toString code ++ "\x27, the error reason is \x27" ++ reason ++ "\x27", .WARNING⟩]
       | .urlError reason =>
         [⟨"The url \x27" ++ url ++ "\x27 causes URLError, the error reason is \x27" ++
             reason ++ "\x27", .WARNING⟩]
       | .valueError =>
         [⟨"The value \x27" ++ url ++ "\x27 is not a valid URL", .ERROR⟩], none)
    else ([], none)
  else
    ([⟨"The value \x27" ++ url ++ "\x27 is not a valid URL, choose URL with \x27https\x27, " ++
        "\x27s3\x27 or \x27file\x27 prefix.", .ERROR⟩], none)

/-- A stack description as returned by the paginated describe_stacks call;
only the fields read by list_pcluster_stacks are modelled. -/
structure StackDescription where
  ParentId : Option String
  StackName : String
deriving DecidableEq, Repr

/-- CfnClient.list_pcluster_stacks: the list comprehension keeping the
stacks with no ParentId whose StackName starts with PCLUSTER_STACK_PREFIX
(that constant is imported from a module outside this excerpt and is passed
in as `pfx`). -/
def list_pcluster_stacks (pfx : String) (stackList : List StackDescription) :
    List StackDescription :=
  stackList.filter (fun stack =>
    stack.ParentId.isNone && List.isPrefixOf pfx.data stack.StackName.data)

/-- A tag of the image-builder configuration (TagSchema: key and value). -/
structure Tag where
  key : String
  value : String
deriving DecidableEq, Repr

/-- Result of re.match applied to the pattern caret pcluster underscore
star: the literal pcluster must begin the key and the underscore repetition
may be empty, so a match exists exactly when pcluster is a prefix of the
key (the trailing underscores impose nothing). -/
def reservedTagRegexMatch (key : String) : Bool :=
  List.isPrefixOf ("pcluster").data key.data

/-- Error message of ImageSchema.validate_reserved_tag (it names only the
underscored prefix even though the regex rejects more). -/
def reservedTagErrorMessage : String :=
  "The tag key prefix \x27pcluster_\x27 is reserved and cannot be used."

/-- ImageSchema.validate_reserved_tag: iterates the tags and raises
ValidationError at the first key matching the reserved pattern (an empty
list is falsy in Python, so it is accepted, as the empty iteration also
shows). -/
def validate_reserved_tag : List Tag → Except String Unit
  | [] => .ok ()
  | tag :: rest =>
    if reservedTagRegexMatch tag.key then .error reservedTagErrorMessage
    else validate_reserved_tag rest

/-- C4: for every volume_type present in the size-bounds table with bounds
(min, max) and every integer volume_size, EbsVolumeTypeSizeValidator emits
no failure when min ≤ size ≤ max, exactly one ERROR failure when size > max,
exactly one ERROR failure when size < min, never both, and emits nothing for
a volume_type absent from the table. -/
theorem ebs_volume_type_size_bounds (sizeBounds : String → Option (Int × Int))
    (volume_type : String) (volume_size : Int) :
    (∀ min_size max_size, sizeBounds volume_type = some (min_size, max_size) →
       (min_size ≤ volume_size → volume_size ≤ max_size →
          ebsVolumeTypeSizeValidate sizeBounds volume_type volume_size = []) ∧
       (volume_size > max_size →
          ∃ f, ebsVolumeTypeSizeValidate sizeBounds volume_type volume_size = [f] ∧
            f.level = .ERROR) ∧
       (volume_size < min_size →
          ∃ f, ebsVolumeTypeSizeValidate sizeBounds volume_type volume_size = [f] ∧
            f.level = .ERROR)) ∧
    (sizeBounds volume_type = none →
       ebsVolumeTypeSizeValidate sizeBounds volume_type volume_size = []) := by
  constructor
  · intro min_size max_size h
    refine ⟨?_, ?_, ?_⟩
    · intro h1 h2
      simp [ebsVolumeTypeSizeValidate, h, not_lt.mpr h1, not_lt.mpr h2]
    · intro hgt
      exact ⟨⟨sizeExceedMessage volume_type max_size, .ERROR⟩,
        by simp [ebsVolumeTypeSizeValidate, h, hgt], rfl⟩
    · intro hlt
      by_cases hgt : volume_size > max_size
      · exact ⟨⟨sizeExceedMessage volume_type max_size, .ERROR⟩,
          by simp [ebsVolumeTypeSizeValidate, h, hgt], rfl⟩
      · exact ⟨⟨sizeBelowMessage volume_type min_size, .ERROR⟩,
          by simp [ebsVolumeTypeSizeValidate, h, hgt, hlt], rfl⟩
  · intro h
    simp [ebsVolumeTypeSizeValidate, h]

/-- Witness for C4: against the documented table, a standard volume of
exactly the maximum 1024 GiB passes with no failure. -/
theorem ebs_volume_type_size_bounds_witness :
    ebsVolumeTypeSizeValidate EBS_VOLUME_TYPE_TO_VOLUME_SIZE_BOUNDS ("standard") 1024 = [] :=
  ((ebs_volume_type_size_bounds EBS_VOLUME_TYPE_TO_VOLUME_SIZE_BOUNDS ("standard") 1024).1
    1 1024 (by decide)).1 (by decide) (by decide)

/-- C5 (amended): provided volume_iops is nonzero, the gp3 throughput-to-IOPS
validator emits the ratio ERROR exactly when the throughput is set (nonzero)
and exceeds volume_iops times 0.25; a ratio of exactly 0.25 passes, and the
validator is a no-op when the throughput is unset or the type is not gp3.
(With volume_iops = 0 the failure branch raises ZeroDivisionError instead;
see the counterexample.) -/
theorem ebs_throughput_iops_ratio (volume_iops : Int) (hiops : volume_iops ≠ 0) (t : Int) :
    (∀ volume_type, volume_type ≠ "gp3" →
        ebsVolumeThroughputIopsValidate volume_type volume_iops (some t) = .ok []) ∧
    (ebsVolumeThroughputIopsValidate ("gp3") volume_iops none = .ok []) ∧
    (t = 0 → ebsVolumeThroughputIopsValidate ("gp3") volume_iops (some t) = .ok []) ∧
    ((t : ℚ) ≤ (volume_iops : ℚ) * 0.25 →
        ebsVolumeThroughputIopsValidate ("gp3") volume_iops (some t) = .ok []) ∧
    (t ≠ 0 → (t : ℚ) > (volume_iops : ℚ) * 0.25 →
        ebsVolumeThroughputIopsValidate ("gp3") volume_iops (some t) =
          .ok [⟨throughputRatioMessage t volume_iops, .ERROR⟩]) := by
  refine ⟨?_, ?_, ?_, ?_, ?_⟩
  · intro vt hvt
    simp [ebsVolumeThroughputIopsValidate, hvt]
  · simp [ebsVolumeThroughputIopsValidate]
  · intro ht
    simp [ebsVolumeThroughputIopsValidate, ht]
  · intro hle
    simp [ebsVolumeThroughputIopsValidate, not_lt.mpr hle]
  · intro ht hgt
    simp [ebsVolumeThroughputIopsValidate, ht, hgt, hiops]

/-- C5 counterexample: at volume_iops = 0 with throughput 4 on gp3 the claimed
ERROR failure is not produced; the validator raises ZeroDivisionError. -/
theorem ebs_throughput_iops_ratio_counterexample :
    ebsVolumeThroughputIopsValidate ("gp3") 0 (some 4) = .error .zeroDivisionError := by
  norm_num [ebsVolumeThroughputIopsValidate]

/-- Witness for C5: iops 400 with throughput 100 is a ratio of exactly 0.25
and passes. -/
theorem ebs_throughput_iops_ratio_witness :
    ebsVolumeThroughputIopsValidate ("gp3") 400 (some 100) = .ok [] :=
  (ebs_throughput_iops_ratio 400 (by decide) 100).2.2.2.1 (by norm_num)

/-- C9: for volume_type gp3 with volume_iops 0 and any positive throughput,
the failure branch is taken (throughput exceeds 0 times 0.25) and the message
formatting divides by float(0): the validator raises ZeroDivisionError
instead of returning a ValidationFailure. -/
theorem ebs_throughput_iops_zero_division (t : Int) (ht : 0 < t) :
    ebsVolumeThroughputIopsValidate ("gp3") 0 (some t) = .error .zeroDivisionError := by
  have h1 : t ≠ 0 := by omega
  have h2 : ((0 : Int) : ℚ) * 0.25 < (t : ℚ) := by
    have h0 : (0 : ℚ) < (t : ℚ) := by exact_mod_cast ht
    simpa using h0
  simp [ebsVolumeThroughputIopsValidate, h1, h2, ht]

/-- Witness for C9 at throughput 100. -/
theorem ebs_throughput_iops_zero_division_witness :
    ebsVolumeThroughputIopsValidate ("gp3") 0 (some 100) = .error .zeroDivisionError :=
  ebs_throughput_iops_zero_division 100 (by decide)

/-- C6 (amended): for a volume_type with IOPS bounds and a set (nonzero)
volume_iops, an out-of-bounds IOPS yields exactly one ERROR and no ratio
check; within bounds, the per-GiB cap check fires an ERROR exactly when
exceeded (provided volume_size is nonzero: at volume_size = 0 the message
formatting raises ZeroDivisionError instead, see the counterexample); at
most one failure ever results, and types without bounds yield none. -/
theorem ebs_iops_bounds_then_cap (iopsBounds : String → Option (Int × Int))
    (iopsRatioOf : String → Int) (volume_type : String) (volume_size : Int)
    (v : Int) (hv : v ≠ 0) :
    (∀ min_iops max_iops, iopsBounds volume_type = some (min_iops, max_iops) →
       ((v < min_iops ∨ v > max_iops) →
          ∃ f, ebsVolumeIopsValidate iopsBounds iopsRatioOf volume_type volume_size (some v) =
              .ok [f] ∧ f.level = .ERROR) ∧
       (min_iops ≤ v → v ≤ max_iops → v > volume_size * iopsRatioOf volume_type →
          volume_size ≠ 0 →
          ebsVolumeIopsValidate iopsBounds iopsRatioOf volume_type volume_size (some v) =
            .ok [⟨iopsRatioMessage v volume_size (iopsRatioOf volume_type), .ERROR⟩]) ∧
       (min_iops ≤ v → v ≤ max_iops → v ≤ volume_size * iopsRatioOf volume_type →
          ebsVolumeIopsValidate iopsBounds iopsRatioOf volume_type volume_size (some v) =
            .ok [])) ∧
    (iopsBounds volume_type = none →
       ebsVolumeIopsValidate iopsBounds iopsRatioOf volume_type volume_size (some v) =
         .ok []) := by
  constructor
  · intro min_iops max_iops h
    refine ⟨?_, ?_, ?_⟩
    · intro hout
      exact ⟨⟨iopsBoundsMessage min_iops max_iops volume_type, .ERROR⟩,
        by simp [ebsVolumeIopsValidate, h, hv, hout], rfl⟩
    · intro hmin hmax hcap hsz
      simp [ebsVolumeIopsValidate, h, hv, hcap, hsz, not_lt.mpr hmin, not_lt.mpr hmax]
    · intro hmin hmax hcap
      simp [ebsVolumeIopsValidate, h, not_lt.mpr hmin, not_lt.mpr hmax, not_lt.mpr hcap]
  · intro h
    simp [ebsVolumeIopsValidate, h]

/-- C6 counterexample: io1, volume_size 0, volume_iops 100 (within the io1
bounds and exceeding the cap 0 x 50): instead of the claimed ratio ERROR the
message formatting divides by float(0) and ZeroDivisionError escapes. -/
theorem ebs_iops_bounds_then_cap_counterexample :
    ebsVolumeIopsValidate sampleIopsBounds sampleIopsCap ("io1") 0 (some 100) =
      .error .zeroDivisionError := by
  decide

/-- Witness for C6: io1 with 4 GiB and 150 IOPS is within bounds and within
the cap 4 x 50 = 200, so the validator passes. -/
theorem ebs_iops_bounds_then_cap_witness :
    ebsVolumeIopsValidate sampleIopsBounds sampleIopsCap ("io1") 4 (some 150) = .ok [] :=
  ((ebs_iops_bounds_then_cap sampleIopsBounds sampleIopsCap ("io1") 4 150 (by decide)).1
    100 64000 (by decide)).2.2 (by decide) (by decide) (by decide)

/-- C1 (amended): a lookup fault the snapshot validator cannot classify (not
a ClientError carrying a recognized code) is caught by the catch-all
exception handler and converted into a generic ERROR ValidationFailure
carrying the fault text; it does not propagate to the caller. -/
theorem snapshot_unclassified_fault (partition sid : String) (hsid : sid ≠ "")
    (lookup : String → SnapshotLookupResult) (volume_size : Int) :
    (∀ description, lookup sid = .otherError description →
       ebsVolumeSizeSnapshotValidate partition lookup (some sid) volume_size =
         .ok [⟨"Issue getting info for snapshot " ++ sid ++ ": " ++ description, .ERROR⟩]) ∧
    (∀ code message, lookup sid = .clientError code message →
       code ≠ "InvalidSnapshot.NotFound" → code ≠ "InvalidSnapshot.Malformed" →
       ebsVolumeSizeSnapshotValidate partition lookup (some sid) volume_size =
         .ok [⟨"Issue getting info for snapshot " ++ sid ++ ": " ++ message, .ERROR⟩]) := by
  constructor
  · intro description h
    simp [ebsVolumeSizeSnapshotValidate, h, hsid]
  · intro code message h h1 h2
    simp [ebsVolumeSizeSnapshotValidate, h, hsid, h1, h2]

/-- C1 counterexample: an unclassifiable lookup fault does not surface as an
unrecoverable error; the validator returns normally with the generic ERROR
ValidationFailure. -/
theorem snapshot_unclassified_fault_counterexample :
    ebsVolumeSizeSnapshotValidate ("aws") (fun _ => .otherError ("connection reset"))
        (some ("snap-0123")) 50 =
      .ok [⟨"Issue getting info for snapshot snap-0123: connection reset", .ERROR⟩] := by
  decide

/-- Witness for C1: a ClientError with an unrecognized code is converted into
the generic ERROR failure. -/
theorem snapshot_unclassified_fault_witness :
    ebsVolumeSizeSnapshotValidate ("aws")
        (fun _ => .clientError ("RequestLimitExceeded") ("slow down"))
        (some ("snap-9")) 50 =
      .ok [⟨"Issue getting info for snapshot snap-9: slow down", .ERROR⟩] := by
  have h := (snapshot_unclassified_fault ("aws") ("snap-9") (by decide)
      (fun _ => .clientError ("RequestLimitExceeded") ("slow down")) 50).2
      ("RequestLimitExceeded") ("slow down") rfl (by decide) (by decide)
  exact h.trans (by decide)

/-- C2: with the lookup returning a record carrying a recorded size and a
state, the snapshot validator emits an ERROR failure when volume_size is
strictly below the recorded size, a WARNING failure when strictly above it,
no size-related failure at equality, and (independently) an additional
WARNING failure whenever the state differs from completed. -/
theorem snapshot_size_state_behavior (partition sid : String) (hsid : sid ≠ "")
    (lookup : String → SnapshotLookupResult) (volume_size snapshot_volume_size : Int)
    (st : String)
    (hlook : lookup sid = .ok ⟨some snapshot_volume_size, some st⟩) :
    ebsVolumeSizeSnapshotValidate partition lookup (some sid) volume_size =
      .ok ((if volume_size < snapshot_volume_size then
              [⟨snapshotShrinkMessage snapshot_volume_size, .ERROR⟩]
            else if volume_size > snapshot_volume_size then
              [⟨snapshotGrowMessage partition, .WARNING⟩]
            else []) ++
           (if st ≠ "completed" then
              [⟨snapshotStateMessage sid (some st), .WARNING⟩]
            else [])) := by
  simp only [ebsVolumeSizeSnapshotValidate, hlook, if_neg hsid]
  simp

/-- Witness for C2: a snapshot of recorded size 50 in state pending with a
requested volume size of 40 yields the shrink ERROR and the state WARNING. -/
theorem snapshot_size_state_behavior_witness :
    ebsVolumeSizeSnapshotValidate ("aws")
        (fun _ => .ok ⟨some 50, some ("pending")⟩) (some ("snap-1")) 40 =
      .ok [⟨snapshotShrinkMessage 50, .ERROR⟩,
           ⟨snapshotStateMessage ("snap-1") (some ("pending")), .WARNING⟩] := by
  have h := snapshot_size_state_behavior ("aws") ("snap-1") (by decide)
      (fun _ => .ok ⟨some 50, some ("pending")⟩) 40 50 ("pending") rfl
  exact h.trans (by decide)

/-- C7: the shrink-branch failure message of the snapshot validator contains
the literal unformatted text \x7bsnapshot_id\x7d (the second source literal
is not an f-string) and is independent of the actual snapshot identifier. -/
theorem snapshot_shrink_placeholder (sid sid2 : String) (h : sid ≠ "") (h2 : sid2 ≠ "")
    (partition : String) (volume_size snapshot_volume_size : Int)
    (hlt : volume_size < snapshot_volume_size) :
    (ebsVolumeSizeSnapshotValidate partition
        (fun _ => .ok ⟨some snapshot_volume_size, some ("completed")⟩) (some sid) volume_size =
      .ok [⟨snapshotShrinkMessage snapshot_volume_size, .ERROR⟩]) ∧
    (∃ l, (snapshotShrinkMessage snapshot_volume_size).data =
        l ++ ("\x7bsnapshot_id\x7d").data) ∧
    (ebsVolumeSizeSnapshotValidate partition
        (fun _ => .ok ⟨some snapshot_volume_size, some ("completed")⟩) (some sid) volume_size =
     ebsVolumeSizeSnapshotValidate partition
        (fun _ => .ok ⟨some snapshot_volume_size, some ("completed")⟩) (some sid2) volume_size) := by
  have key : ∀ s : String, s ≠ "" →
      ebsVolumeSizeSnapshotValidate partition
        (fun _ => .ok ⟨some snapshot_volume_size, some ("completed")⟩) (some s) volume_size =
        .ok [⟨snapshotShrinkMessage snapshot_volume_size, .ERROR⟩] := by
    intro s hs
    simp [ebsVolumeSizeSnapshotValidate, hs, hlt]
  refine ⟨key sid h, ?_, (key sid h).trans (key sid2 h2).symm⟩
  refine ⟨(("The EBS volume size must not be smaller than " ++
      toString snapshot_volume_size ++ ", ") ++
      ("because it is the size of the provided snapshot ")).data, ?_⟩
  have hb : ("because it is the size of the provided snapshot \x7bsnapshot_id\x7d").data =
      ("because it is the size of the provided snapshot ").data ++
        ("\x7bsnapshot_id\x7d").data := by decide
  simp [snapshotShrinkMessage, String.data_append, hb]

/-- Witness for C7 at snapshot size 50 and volume size 40. -/
theorem snapshot_shrink_placeholder_witness :
    ebsVolumeSizeSnapshotValidate ("aws")
        (fun _ => .ok ⟨some 50, some ("completed")⟩) (some ("snap-a")) 40 =
      .ok [⟨snapshotShrinkMessage 50, .ERROR⟩] :=
  (snapshot_shrink_placeholder ("snap-a") ("snap-b") (by decide) (by decide)
    ("aws") 40 50 (by decide)).1

/-- C3 evaluated at the failing input: for an s3 url with no slash after the
bucket, the invalid-url ERROR failure is recorded but the validator does not
return normally; match.group on None raises AttributeError, which the
ClientError-only handler does not catch, so it escapes to the caller. -/
theorem url_validator_s3_no_key_raises :
    UrlValidator_validate (fun _ _ => .ok ()) (fun _ => UrlOpenResult.ok)
        ("s3://bucket-only") =
      ([⟨"s3 url \x27s3://bucket-only\x27 is invalid.", .ERROR⟩], some .attributeError) := by
  decide

/-- C8: list_pcluster_stacks returns exactly the stacks with no ParentId
whose StackName starts with the pcluster stack-name beginning, in their
original order (the result is a sublist of the paginated input). -/
theorem list_pcluster_stacks_filters (pfx : String) (stackList : List StackDescription) :
    (∀ s, s ∈ list_pcluster_stacks pfx stackList ↔
        s ∈ stackList ∧ s.ParentId = none ∧ List.isPrefixOf pfx.data s.StackName.data = true) ∧
    (list_pcluster_stacks pfx stackList).Sublist stackList := by
  constructor
  · intro s
    simp [list_pcluster_stacks, List.mem_filter, Option.isNone_iff_eq_none, and_assoc]
  · exact List.filter_sublist _

/-- C10: validate_reserved_tag raises its ValidationError exactly when some
tag key begins with the letters pcluster (the regex underscore repetition
may be empty, so no underscore is required, although the message names only
the underscored prefix); tag lists whose keys do not begin with pcluster are
accepted. -/
theorem validate_reserved_tag_rejects (tags : List Tag) :
    validate_reserved_tag tags = .error reservedTagErrorMessage ↔
      ∃ tag ∈ tags, List.isPrefixOf ("pcluster").data tag.key.data = true := by
  induction tags with
  | nil => simp [validate_reserved_tag]
  | cons t ts ih =>
    simp only [validate_reserved_tag, reservedTagRegexMatch]
    by_cases h : List.isPrefixOf ("pcluster").data t.key.data = true
    · rw [if_pos h]
      constructor
      · intro _
        exact ⟨t, List.mem_cons_self t ts, h⟩
      · intro _
        rfl
    · rw [if_neg h, ih]
      constructor
      · rintro ⟨tag, htag, hp⟩
        exact ⟨tag, List.mem_cons_of_mem t htag, hp⟩
      · rintro ⟨tag, htag, hp⟩
        rcases List.mem_cons.mp htag with heq | hmem
        · subst heq
          exact absurd hp h
        · exact ⟨tag, hmem, hp⟩

